import Mathlib

/-!
Verification of the conversational booking flow of the meshwar mobile app
(chat screen in `src/app/_layout.tsx`): reply interpretation, booking
creation, context assembly and turn orchestration.

Strings from the TypeScript source are embedded as `List Char`; `str`
converts a Lean string literal to that representation.  JavaScript string
truthiness (empty string is falsy) is modelled by `jsOrStr` / `jsTruthy`.
-/

namespace Meshwar

def str (s : String) : List Char := s.data

/-- JavaScript `a || b` on strings: `b` when `a` is empty (falsy), else `a`. -/
def jsOrStr (a b : List Char) : List Char := if a.isEmpty then b else a

/-- JavaScript truthiness of an optional string field: present and non-empty. -/
def jsTruthy (o : Option (List Char)) : Bool :=
  match o with
  | none => false
  | some s => !s.isEmpty

/-- JavaScript `String.prototype.trim`: drop leading and trailing whitespace. -/
def trimChars (s : List Char) : List Char :=
  ((s.dropWhile Char.isWhitespace).reverse.dropWhile Char.isWhitespace).reverse

/-- JavaScript `String.prototype.includes`: substring containment. -/
def jsIncludes (s sep : List Char) : Bool :=
  match s with
  | [] => sep.isPrefixOf []
  | _ :: rest => sep.isPrefixOf s || jsIncludes rest sep

/-- Split at the first occurrence of `sep`: `some (before, after)` where
`after` starts right past the occurrence; `none` when `sep` does not occur. -/
def splitFirst (sep : List Char) : List Char → Option (List Char × List Char)
  | [] => if sep.isPrefixOf [] then some ([], []) else none
  | c :: rest =>
    if sep.isPrefixOf (c :: rest) then some ([], List.drop sep.length (c :: rest))
    else (splitFirst sep rest).map (fun p => (c :: p.1, p.2))

/-- JavaScript `s.split(sep)[1]`: the segment between the first and second
occurrence of `sep` (to the end when there is no second occurrence).  The
source only evaluates it after an `includes` guard, so the `none` case is
unreachable there. -/
def splitIdx1 (sep s : List Char) : List Char :=
  match splitFirst sep s with
  | none => []
  | some p =>
    match splitFirst sep p.2 with
    | none => p.2
    | some q => q.1

/-- The booking sentinel token of `handleSendMessage`. -/
def bookToken : List Char := str "BOOK_ACTIVITY:"

inductive ReplyAction where
  | book (activityId : List Char)
  | display (text : List Char)
deriving DecidableEq

/-- Reply Interpreter (lines 516–535 of the chat screen): the branch of
`handleSendMessage` on the raw generated reply.  Source:
`if (response.includes('BOOK_ACTIVITY:')) \x7b const activityId =
response.split('BOOK_ACTIVITY:')[1].trim(); ... \x7d else show response`. -/
def interpretReply (response : List Char) : ReplyAction :=
  if jsIncludes response bookToken then
    ReplyAction.book (trimChars (splitIdx1 bookToken response))
  else ReplyAction.display response

/-! ## Data model (interfaces `Location`, `Activity`, `Booking`, `Message`) -/

/-- Chat message (`interface Message`); the numeric id stands for the
`Date.now().toString()` id and `timestamp` for the `Date` value. -/
structure Message where
  id : Nat
  text : List Char
  isUser : Bool
  timestamp : Nat
deriving DecidableEq

/-- Activity document (`interface Activity`).  The `Timestamp | string`
date fields are modelled in their string form. -/
structure Activity where
  id : List Char
  title : List Char
  description : List Char
  ageGroup : List Char
  difficulty : List Char
  startDate : List Char
  endDate : List Char
  startTime : List Char
  endTime : List Char
  estimatedCost : Int
  estimatedDuration : Int
  currentParticipants : Nat
  locations : List (List Char)
  tags : List (List Char)
  isActive : Bool
  isExpired : Bool
deriving DecidableEq

inductive BStatus where
  | confirmed
  | pending
  | cancelled
deriving DecidableEq

/-- Booking document (`interface Booking`); timestamps are modelled as
naturals (both the server timestamp and the ISO string of the source). -/
structure Booking where
  id : List Char
  activityId : List Char
  userId : List Char
  status : BStatus
  createdAt : Nat
  updatedAt : Nat
deriving DecidableEq

/-! ## Booking Executor (`createBooking`, lines 315–388)

The remote `bookings` collection is modelled as a `List Booking`; the
Firestore queries become filters over it.  Each of the three store
operations (`getDocs` of the duplicate query, `getDocs` of the confirmed
count query, `setDoc`) may fail; a `FailSpec` records which of them
throws, in which case the surrounding `try/catch` yields the generic
failure message. -/

structure FailSpec where
  failDupQuery : Bool
  failCountQuery : Bool
  failSetDoc : Bool
deriving DecidableEq

def noFail : FailSpec := ⟨false, false, false⟩

/-- `const maxParticipants = 50` (line 341). -/
def maxParticipants : Nat := 50

def msgAlreadyBooked : List Char := str "You\x27re already booked for this activity!"

def msgNotFound : List Char := str "Activity not found."

def msgUnavailable : List Char := str "This activity is no longer available for booking."

def msgFull (n : Nat) : List Char :=
  str "Sorry, this activity is full! (" ++ str (Nat.repr n) ++ str "/" ++
    str (Nat.repr maxParticipants) ++ str " participants)"

def msgSuccess (title : List Char) (cnt : Nat) : List Char :=
  str "Successfully booked \"" ++ title ++ str "\"! 🎉\n\nYou\x27re participant " ++
    str (Nat.repr (cnt + 1)) ++ str "/" ++ str (Nat.repr maxParticipants) ++
    str ". See you there!"

def msgGenericFail : List Char := str "Failed to create booking. Please try again."

structure BookingResult where
  success : Bool
  message : List Char
deriving DecidableEq

/-- The duplicate-check query result (lines 318–324): bookings matching
`userId == uid` and `activityId == aid` — note: no status filter. -/
def dupBookings (store : List Booking) (uid aid : List Char) : List Booking :=
  store.filter (fun b => b.userId == uid && b.activityId == aid)

/-- The fresh confirmed-count query (lines 347–353): bookings matching
`activityId == aid` and `status == 'confirmed'`. -/
def confirmedCount (store : List Booking) (aid : List Char) : Nat :=
  (store.filter (fun b => b.activityId == aid && b.status == BStatus.confirmed)).length

/-- `createBooking(activityId)` (lines 315–388).  Returns the result
value together with the updated store and the updated in-memory
`userBookings` list; a failing check returns without touching either. -/
def createBooking (store : List Booking) (activities : List Activity)
    (userBookings : List Booking) (uid aid : List Char) (fail : FailSpec)
    (newId : List Char) (now : Nat) :
    BookingResult × List Booking × List Booking :=
  if fail.failDupQuery then (⟨false, msgGenericFail⟩, store, userBookings)
  else if !(dupBookings store uid aid).isEmpty then
    (⟨false, msgAlreadyBooked⟩, store, userBookings)
  else
    match activities.find? (fun a => a.id == aid) with
    | none => (⟨false, msgNotFound⟩, store, userBookings)
    | some activity =>
      if !activity.isActive || activity.isExpired then
        (⟨false, msgUnavailable⟩, store, userBookings)
      else if activity.currentParticipants ≥ maxParticipants then
        (⟨false, msgFull activity.currentParticipants⟩, store, userBookings)
      else if fail.failCountQuery then (⟨false, msgGenericFail⟩, store, userBookings)
      else
        let currentBookingCount := confirmedCount store aid
        if currentBookingCount ≥ maxParticipants then
          (⟨false, msgFull currentBookingCount⟩, store, userBookings)
        else if fail.failSetDoc then (⟨false, msgGenericFail⟩, store, userBookings)
        else
          let newBooking : Booking := ⟨newId, aid, uid, BStatus.confirmed, now, now⟩
          (⟨true, msgSuccess activity.title currentBookingCount⟩,
            store ++ [newBooking], userBookings ++ [newBooking])

/-! ## Context Assembler inside `callGeminiAPI` (lines 390–495) -/

/-- User profile document (`users/{uid}`): the fields the chat screen
reads.  Optional fields model absent document fields. -/
structure UserProfile where
  geminiApiKey : Option (List Char)
  location : Option (List Char)
  displayName : List Char
  email : List Char
deriving DecidableEq

/-- `const recentMessages = messages.slice(-8)` (line 398). -/
def recentMessages (msgs : List Message) : List Message :=
  msgs.drop (msgs.length - 8)

/-- One line of the serialized conversation context (lines 399–400):
`(msg.isUser ? 'User' : 'AI') + ': ' + msg.text`. -/
def renderMsgLine (m : Message) : List Char :=
  (if m.isUser then str "User" else str "AI") ++ str ": " ++ m.text

/-- `conversationContext` (lines 399–401): the last 8 messages rendered
as lines joined with newlines. -/
def conversationContext (msgs : List Message) : List Char :=
  List.intercalate (str "\n") ((recentMessages msgs).map renderMsgLine)

/-- `lastAIMessage` (line 404): text of the last non-user message among
the last 8, or the empty string (`.pop()?.text || ''`). -/
def lastAIMessage (msgs : List Message) : List Char :=
  match ((recentMessages msgs).filter (fun m => !m.isUser)).getLast? with
  | none => []
  | some m => m.text

/-- `isActiveBookingDiscussion` (lines 405–408). -/
def isActiveBookingDiscussion (msgs : List Message) : Bool :=
  jsIncludes (lastAIMessage msgs) (str "Would you like to book") ||
    jsIncludes (lastAIMessage msgs) (str "book this activity") ||
    jsIncludes (lastAIMessage msgs) (str "confirm") ||
    jsIncludes (lastAIMessage msgs) (str "Just to confirm")

/-! ## Generation endpoint call (`callGeminiAPI`, lines 390–495)

The HTTP exchange is an oracle: the fetch either rejects, returns a
non-ok status, or returns a parsed JSON envelope
`data.candidates?.[0]?.content?.parts?.[0]?.text`. -/

structure GeminiPart where
  text : Option (List Char)
deriving DecidableEq

structure GeminiContent where
  parts : Option (List GeminiPart)
deriving DecidableEq

structure GeminiCandidate where
  content : Option GeminiContent
deriving DecidableEq

structure GeminiEnvelope where
  candidates : Option (List GeminiCandidate)
deriving DecidableEq

inductive GeminiNet where
  | netError
  | httpError (status : Nat)
  | ok (envelope : GeminiEnvelope)
deriving DecidableEq

/-- The optional-chaining extraction
`data.candidates?.[0]?.content?.parts?.[0]?.text` (line 490). -/
def extractCandidateText (d : GeminiEnvelope) : Option (List Char) :=
  ((((d.candidates.bind List.head?).bind GeminiCandidate.content).bind
    GeminiContent.parts).bind List.head?).bind GeminiPart.text

def geminiFallbackMsg : List Char :=
  str "I apologize, but I couldn\x27t process your request. Please try again."

def msgNoKey : List Char :=
  str "I need access to your Gemini API key to provide intelligent responses. Please add your API key in the \x27More\x27 tab under profile settings."

def msgGeminiError : List Char :=
  str "I\x27m having trouble connecting to the AI service. Please check your API key in settings or try again later."

/-- Result of one `callGeminiAPI` invocation: the reply string, and
whether the generation endpoint was contacted at all. -/
structure GeminiRun where
  reply : List Char
  fetchAttempted : Bool
deriving DecidableEq

/-- `callGeminiAPI(userMessage)` (lines 390–495).  The system prompt it
assembles (via `conversationContext` and `isActiveBookingDiscussion`
over `msgs`) only influences the remote model, which is the `net`
oracle here; network and JSON failures are caught and degraded to
`msgGeminiError`, a missing/empty credential short-circuits before the
fetch. -/
def callGeminiAPI (profile : Option UserProfile) (msgs : List Message)
    (net : GeminiNet) : GeminiRun :=
  if !(jsTruthy (profile.bind UserProfile.geminiApiKey)) then ⟨msgNoKey, false⟩
  else
    let _systemPromptContext := conversationContext msgs
    let _systemPromptFlag := isActiveBookingDiscussion msgs
    match net with
    | GeminiNet.netError => ⟨msgGeminiError, true⟩
    | GeminiNet.httpError _ => ⟨msgGeminiError, true⟩
    | GeminiNet.ok envelope =>
      ⟨jsOrStr ((extractCandidateText envelope).getD []) geminiFallbackMsg, true⟩

/-! ## Turn Orchestrator (`handleSendMessage`, lines 497–547) -/

/-- Chat screen state touched by a turn: the transcript, the input box,
the busy flag, the in-memory snapshots and the remote bookings store. -/
structure ChatState where
  messages : List Message
  inputText : List Char
  loading : Bool
  store : List Booking
  activities : List Activity
  userBookings : List Booking
  userProfile : Option UserProfile
  uid : List Char
deriving DecidableEq

/-- Environment of one turn: the generation-endpoint oracle, the store
failure oracle, the generated booking document id and the clock. -/
structure TurnOracle where
  net : GeminiNet
  fail : FailSpec
  newId : List Char
  now : Nat
deriving DecidableEq

/-- `handleSendMessage` (lines 497–547).  `callGeminiAPI` reads the
`messages` render closure, i.e. the transcript before the new user
message; both transcript updates use functional `setMessages(prev =>
...)`, so the final transcript is the old one plus the user message
plus exactly one assistant message.  `callGeminiAPI` and
`createBooking` catch their own errors, so the orchestrator's `catch`
branch is unreachable. -/
def handleSendMessage (st : ChatState) (o : TurnOracle) : ChatState :=
  if (trimChars st.inputText).isEmpty || st.loading then st
  else
    let userMessage : Message := ⟨o.now, trimChars st.inputText, true, o.now⟩
    let run := callGeminiAPI st.userProfile st.messages o.net
    match interpretReply run.reply with
    | ReplyAction.book activityId =>
      let r := createBooking st.store st.activities st.userBookings st.uid activityId
        o.fail o.newId o.now
      let aiMessage : Message := ⟨o.now + 1, r.1.message, false, o.now + 1⟩
      { st with
        messages := st.messages ++ [userMessage, aiMessage]
        inputText := []
        loading := false
        store := r.2.1
        userBookings := r.2.2 }
    | ReplyAction.display text =>
      let aiMessage : Message := ⟨o.now + 1, text, false, o.now + 1⟩
      { st with
        messages := st.messages ++ [userMessage, aiMessage]
        inputText := []
        loading := false }

/-! ## Location enrichment (`getEnhancedPlaceInfo`, lines 132–171) -/

/-- Location document (`interface Location`); coordinates only feed the
geocoding URL, so they are plain integers here. -/
structure LocationDoc where
  id : List Char
  name : List Char
  description : List Char
  address : List Char
  lat : Int
  lng : Int
  categoryId : List Char
  isActive : Bool
deriving DecidableEq

/-- Parsed reverse-geocoding envelope: the fields the code reads. -/
structure GeoData where
  city : Option (List Char)
  locality : Option (List Char)
  countryName : Option (List Char)
deriving DecidableEq

/-- Reverse-geocoding oracle: the fetch/JSON either fails (caught by the
inner `catch`, line 150) or yields a parsed envelope. -/
inductive GeoNet where
  | fail
  | ok (data : GeoData)
deriving DecidableEq

/-- `coordinatePlaceName` (lines 138–152): built from the envelope when
city/locality and country are truthy, otherwise the empty string. -/
def coordinatePlaceName (net : GeoNet) : List Char :=
  match net with
  | GeoNet.fail => []
  | GeoNet.ok data =>
    if jsTruthy data.city && jsTruthy data.countryName then
      data.city.getD [] ++ str ", " ++
        (if jsTruthy data.locality then data.locality.getD [] ++ str ", " else []) ++
        data.countryName.getD []
    else if jsTruthy data.locality && jsTruthy data.countryName then
      data.locality.getD [] ++ str ", " ++ data.countryName.getD []
    else []

structure PlaceInfo where
  placeName : List Char
  fullContext : List Char
deriving DecidableEq

/-- `getEnhancedPlaceInfo(location)` (lines 132–171).  Everything inside
the outer `try` besides the geocoding fetch is exception-free, so the
outer `catch` (line 166) is unreachable and the function is total. -/
def getEnhancedPlaceInfo (loc : LocationDoc) (net : GeoNet) : PlaceInfo :=
  let addressInfo := loc.address
  let coord := coordinatePlaceName net
  let placeName := jsOrStr addressInfo loc.name
  let fullContext :=
    if !coord.isEmpty && coord ≠ addressInfo then
      (if !addressInfo.isEmpty then addressInfo ++ str " (" ++ coord ++ str ")"
       else coord)
    else addressInfo
  ⟨jsOrStr placeName (str "Unknown location"),
    jsOrStr fullContext (str "Unknown location")⟩

/-! ## Lemmas about `jsIncludes` and `splitFirst` -/

theorem jsIncludes_iff_infix (sep : List Char) :
    ∀ s : List Char, jsIncludes s sep = true ↔ sep <:+: s := by
  intro s
  induction s with
  | nil => simp [jsIncludes]
  | cons c rest ih => simp [jsIncludes, List.infix_cons_iff, ih]

theorem splitFirst_eq_none_iff (sep : List Char) :
    ∀ s : List Char, splitFirst sep s = none ↔ jsIncludes s sep = false := by
  intro s
  induction s with
  | nil =>
    simp only [splitFirst, jsIncludes]
    by_cases h : sep.isPrefixOf [] <;> simp [h]
  | cons c rest ih =>
    simp only [splitFirst, jsIncludes]
    by_cases h : sep.isPrefixOf (c :: rest) <;> simp [h, Option.map_eq_none', ih]

theorem splitFirst_first_occ (c : Char) (sep' : List Char) :
    ∀ (pre mid : List Char),
      (∀ t ∈ pre.tails, t ≠ [] →
        (c :: sep').isPrefixOf (t ++ (c :: sep') ++ mid) = false) →
      splitFirst (c :: sep') (pre ++ (c :: sep') ++ mid) = some (pre, mid) := by
  intro pre
  induction pre with
  | nil =>
    intro mid _
    have hp : (c :: sep').isPrefixOf ((c :: sep') ++ mid) = true := by
      simp [List.isPrefixOf_iff_prefix, List.prefix_append]
    simp [splitFirst, hp, List.drop_left']
  | cons p pre' ih =>
    intro mid h
    have hself : (c :: sep').isPrefixOf ((p :: pre') ++ (c :: sep') ++ mid) = false := by
      refine h (p :: pre') ?_ (by simp)
      simp [List.mem_tails]
    have hrec := ih mid (fun t ht hne => h t (by
      simp only [List.mem_tails] at ht ⊢
      exact ht.trans (List.suffix_cons p pre')) hne)
    simp only [List.cons_append] at hself ⊢
    simp only [splitFirst, hself, Bool.false_eq_true, if_false, hrec, Option.map_some']

/-! ## C1: sentinel round-trip of the Reply Interpreter -/

/-- C1 counterexample: the claim says that for a reply of the form
`...BOOK_ACTIVITY:<id>...` the interpreter extracts exactly `<id>`, the
substring after the token up to the next whitespace.  On the reply
`"BOOK_ACTIVITY:act123 Great choice!"` the code
(`response.split('BOOK_ACTIVITY:')[1].trim()`) extracts
`"act123 Great choice!"`, not `"act123"`. -/
theorem c1_claim_counterexample :
    interpretReply (str "BOOK_ACTIVITY:act123 Great choice!") =
      ReplyAction.book (str "act123 Great choice!") ∧
    str "act123 Great choice!" ≠ str "act123" := by decide

/-- C1 (amended): for a reply containing the sentinel token, the
interpreter extracts the substring after the first occurrence of the
token up to the next occurrence of the token or the end of the reply
(not up to the next whitespace), trimmed of surrounding whitespace, and
routes it to the booking executor; a reply without the token is
displayed verbatim.  `pre ++ bookToken ++ mid` ranges over all replies
whose first token occurrence is the exhibited one (`hpre`); the first
conjunct is the end-of-reply case, the second the case of a further
token occurrence inside `mid`, whose position `splitFirst` names. -/
theorem c1_sentinel_roundtrip (pre mid reply : List Char)
    (hpre : ∀ t ∈ pre.tails, t ≠ [] →
      bookToken.isPrefixOf (t ++ bookToken ++ mid) = false)
    (hreply : jsIncludes reply bookToken = false) :
    (splitFirst bookToken mid = none →
      interpretReply (pre ++ bookToken ++ mid) =
        ReplyAction.book (trimChars mid)) ∧
    (∀ seg rest : List Char, splitFirst bookToken mid = some (seg, rest) →
      interpretReply (pre ++ bookToken ++ mid) =
        ReplyAction.book (trimChars seg)) ∧
    interpretReply reply = ReplyAction.display reply := by
  have hbt : bookToken = 'B' :: str "OOK_ACTIVITY:" := by decide
  have hsf : splitFirst bookToken (pre ++ bookToken ++ mid) = some (pre, mid) := by
    rw [hbt] at hpre ⊢
    exact splitFirst_first_occ _ _ pre mid hpre
  have hinc : jsIncludes (pre ++ bookToken ++ mid) bookToken = true := by
    rcases Bool.eq_false_or_eq_true
        (jsIncludes (pre ++ bookToken ++ mid) bookToken) with ht | hf
    · exact ht
    · rw [(splitFirst_eq_none_iff _ _).mpr hf] at hsf
      cases hsf
  refine ⟨?_, ?_, ?_⟩
  · intro h
    simp only [interpretReply, hinc, if_true, splitIdx1, hsf, h]
  · intro seg rest h
    simp only [interpretReply, hinc, if_true, splitIdx1, hsf, h]
  · simp [interpretReply, hreply]

/-- Witness for C1: a sentinel reply whose tail holds a second token
occurrence (extraction stops there), and a concrete plain reply. -/
theorem c1_sentinel_roundtrip_witness :
    interpretReply
        (str "Sure! " ++ bookToken ++ (str " act123 " ++ bookToken ++ str "act9")) =
      ReplyAction.book (trimChars (str " act123 ")) ∧
    interpretReply (str "What activities are there?") =
      ReplyAction.display (str "What activities are there?") :=
  ⟨(c1_sentinel_roundtrip (str "Sure! ")
      (str " act123 " ++ bookToken ++ str "act9")
      (str "What activities are there?") (by decide) (by decide)).2.1
      (str " act123 ") (str "act9") (by decide),
    (c1_sentinel_roundtrip (str "Sure! ")
      (str " act123 " ++ bookToken ++ str "act9")
      (str "What activities are there?") (by decide) (by decide)).2.2⟩

/-! ## C2: turn completion guarantee -/

/-- C2: for every turn started by `handleSendMessage` (non-empty input,
not busy), for every generation-endpoint outcome (including missing
credential, network error, non-success status, malformed envelope) and
every booking outcome, exactly one assistant message is appended after
the user's message and the loading flag ends cleared. -/
theorem c2_turn_completion (st : ChatState) (o : TurnOracle)
    (hinput : (trimChars st.inputText).isEmpty = false)
    (hbusy : st.loading = false) :
    ∃ a : Message, a.isUser = false ∧
      (handleSendMessage st o).messages =
        st.messages ++ [⟨o.now, trimChars st.inputText, true, o.now⟩, a] ∧
      (handleSendMessage st o).loading = false := by
  unfold handleSendMessage
  rw [hinput, hbusy]
  simp only [Bool.or_self, Bool.false_eq_true, if_false]
  cases hr : interpretReply (callGeminiAPI st.userProfile st.messages o.net).reply with
  | book activityId =>
    exact ⟨⟨o.now + 1,
      (createBooking st.store st.activities st.userBookings st.uid activityId
        o.fail o.newId o.now).1.message, false, o.now + 1⟩, rfl, rfl, rfl⟩
  | display text =>
    exact ⟨⟨o.now + 1, text, false, o.now + 1⟩, rfl, rfl, rfl⟩

/-- Witness for C2: a concrete turn with a failing generation call. -/
theorem c2_turn_completion_witness :
    ∃ a : Message, a.isUser = false ∧
      (handleSendMessage
          ⟨[], str "hi", false, [], [], [], none, str "u1"⟩
          ⟨GeminiNet.netError, noFail, str "b1", 5⟩).messages =
        [] ++ [⟨5, trimChars (str "hi"), true, 5⟩, a] ∧
      (handleSendMessage
          ⟨[], str "hi", false, [], [], [], none, str "u1"⟩
          ⟨GeminiNet.netError, noFail, str "b1", 5⟩).loading = false :=
  c2_turn_completion ⟨[], str "hi", false, [], [], [], none, str "u1"⟩
    ⟨GeminiNet.netError, noFail, str "b1", 5⟩ (by decide) rfl

/-! ## C4 / C7: duplicate guard (the query has no status filter) -/

theorem dupBookings_not_empty (store : List Booking) (uid aid : List Char)
    (b : Booking) (hb : b ∈ store) (hu : b.userId = uid) (ha : b.activityId = aid) :
    (dupBookings store uid aid).isEmpty = false := by
  have hmem : b ∈ dupBookings store uid aid :=
    List.mem_filter.mpr ⟨hb, by simp [hu, ha]⟩
  cases hemp : (dupBookings store uid aid).isEmpty
  · rfl
  · rw [List.isEmpty_iff] at hemp
    rw [hemp] at hmem
    cases hmem

/-- C4: when the store already holds a confirmed booking for
`(uid, aid)`, `createBooking` returns the already-booked failure, writes
nothing to the store and leaves the in-memory booking list unchanged
(for any outcome of the later store operations). -/
theorem c4_duplicate_guard (store : List Booking) (activities : List Activity)
    (ub : List Booking) (uid aid newId : List Char) (now : Nat) (fail : FailSpec)
    (b : Booking) (hb : b ∈ store) (hu : b.userId = uid) (ha : b.activityId = aid)
    (_hstatus : b.status = BStatus.confirmed) (hfail : fail.failDupQuery = false) :
    createBooking store activities ub uid aid fail newId now =
      (⟨false, msgAlreadyBooked⟩, store, ub) := by
  have hne := dupBookings_not_empty store uid aid b hb hu ha
  simp [createBooking, hfail, hne]

/-- Witness for C4: one confirmed booking in the store. -/
theorem c4_duplicate_guard_witness :
    createBooking [⟨str "b1", str "act1", str "u1", BStatus.confirmed, 0, 0⟩] [] []
        (str "u1") (str "act1") noFail (str "x") 3 =
      (⟨false, msgAlreadyBooked⟩,
        [⟨str "b1", str "act1", str "u1", BStatus.confirmed, 0, 0⟩], []) :=
  c4_duplicate_guard _ _ _ _ _ _ _ _
    ⟨str "b1", str "act1", str "u1", BStatus.confirmed, 0, 0⟩
    (by decide) rfl rfl rfl rfl

/-- C7 (implicit): the duplicate pre-check queries by `(userId,
activityId)` only — no status filter — so even a `cancelled` booking for
the pair makes `createBooking` return the already-booked failure with no
write, blocking rebooking through this flow. -/
theorem c7_cancelled_blocks_rebooking (store : List Booking)
    (activities : List Activity) (ub : List Booking) (uid aid newId : List Char)
    (now : Nat) (fail : FailSpec) (b : Booking) (hb : b ∈ store)
    (hu : b.userId = uid) (ha : b.activityId = aid)
    (_hstatus : b.status = BStatus.cancelled) (hfail : fail.failDupQuery = false) :
    createBooking store activities ub uid aid fail newId now =
      (⟨false, msgAlreadyBooked⟩, store, ub) := by
  have hne := dupBookings_not_empty store uid aid b hb hu ha
  simp [createBooking, hfail, hne]

/-- Witness for C7: a cancelled booking in the store still blocks. -/
theorem c7_cancelled_blocks_rebooking_witness :
    createBooking [⟨str "b2", str "act9", str "u7", BStatus.cancelled, 0, 0⟩]
        [] [] (str "u7") (str "act9") noFail (str "y") 4 =
      (⟨false, msgAlreadyBooked⟩,
        [⟨str "b2", str "act9", str "u7", BStatus.cancelled, 0, 0⟩], []) :=
  c7_cancelled_blocks_rebooking _ _ _ _ _ _ _ _
    ⟨str "b2", str "act9", str "u7", BStatus.cancelled, 0, 0⟩
    (by decide) rfl rfl rfl rfl

/-! ## C5: unavailability guard -/

/-- C5: for an activity in the snapshot with `isActive = false` or
`isExpired = true`, `createBooking` never succeeds and never writes —
whatever the duplicate state, the capacity and the store failures. -/
theorem c5_unavailability_guard (store : List Booking) (activities : List Activity)
    (ub : List Booking) (uid aid newId : List Char) (now : Nat) (fail : FailSpec)
    (a : Activity) (hfind : activities.find? (fun x => x.id == aid) = some a)
    (hunavail : a.isActive = false ∨ a.isExpired = true) :
    (createBooking store activities ub uid aid fail newId now).1.success = false ∧
    (createBooking store activities ub uid aid fail newId now).2.1 = store ∧
    (createBooking store activities ub uid aid fail newId now).2.2 = ub := by
  have hcond : (!a.isActive || a.isExpired) = true := by
    rcases hunavail with h | h <;> simp [h]
  unfold createBooking
  rw [hfind]
  cases hfd : fail.failDupQuery
  · cases hdup : (dupBookings store uid aid).isEmpty <;> simp [hcond]
  · simp

/-- Witness for C5: an expired activity. -/
theorem c5_unavailability_guard_witness :
    (createBooking []
        [⟨str "act1", str "Hike", str "d", str "all", str "easy", str "s", str "e",
          str "9", str "10", 5, 60, 0, [], [], true, true⟩]
        [] (str "u1") (str "act1") noFail (str "z") 6).1.success = false ∧
    (createBooking []
        [⟨str "act1", str "Hike", str "d", str "all", str "easy", str "s", str "e",
          str "9", str "10", 5, 60, 0, [], [], true, true⟩]
        [] (str "u1") (str "act1") noFail (str "z") 6).2.1 = [] ∧
    (createBooking []
        [⟨str "act1", str "Hike", str "d", str "all", str "easy", str "s", str "e",
          str "9", str "10", 5, 60, 0, [], [], true, true⟩]
        [] (str "u1") (str "act1") noFail (str "z") 6).2.2 = [] :=
  c5_unavailability_guard _ _ _ _ _ _ _ _
    ⟨str "act1", str "Hike", str "d", str "all", str "easy", str "s", str "e",
      str "9", str "10", 5, 60, 0, [], [], true, true⟩
    (by decide) (Or.inr rfl)

/-! ## C3: capacity guard -/

theorem confirmedCount_append_confirmed (store : List Booking)
    (aid newId uid : List Char) (now : Nat) :
    confirmedCount (store ++ [⟨newId, aid, uid, BStatus.confirmed, now, now⟩]) aid =
      confirmedCount store aid + 1 := by
  simp [confirmedCount, List.filter_append]

/-- C3: for a bookable activity (no duplicate, active, not expired),
when the in-memory participant counter or the fresh confirmed count
meets the fixed ceiling of 50 the result is the full failure carrying
the observed count with zero writes; at a fresh count of 49 (ceiling−1)
the booking is committed as confirmed, the success message reports
position count+1 of 50, and the resulting confirmed count equals 50. -/
theorem c3_capacity_guard (store : List Booking) (activities : List Activity)
    (ub : List Booking) (uid aid newId : List Char) (now : Nat) (a : Activity)
    (hdup : (dupBookings store uid aid).isEmpty = true)
    (hfind : activities.find? (fun x => x.id == aid) = some a)
    (hact : a.isActive = true) (hexp : a.isExpired = false) :
    (a.currentParticipants ≥ maxParticipants →
      createBooking store activities ub uid aid noFail newId now =
        (⟨false, msgFull a.currentParticipants⟩, store, ub)) ∧
    (a.currentParticipants < maxParticipants →
      confirmedCount store aid ≥ maxParticipants →
      createBooking store activities ub uid aid noFail newId now =
        (⟨false, msgFull (confirmedCount store aid)⟩, store, ub)) ∧
    (a.currentParticipants < maxParticipants →
      confirmedCount store aid = maxParticipants - 1 →
      createBooking store activities ub uid aid noFail newId now =
        (⟨true, msgSuccess a.title (confirmedCount store aid)⟩,
          store ++ [⟨newId, aid, uid, BStatus.confirmed, now, now⟩],
          ub ++ [⟨newId, aid, uid, BStatus.confirmed, now, now⟩]) ∧
      confirmedCount
          (createBooking store activities ub uid aid noFail newId now).2.1 aid =
        maxParticipants) := by
  refine ⟨?_, ?_, ?_⟩
  · intro h50
    unfold createBooking
    rw [hfind]
    simp [noFail, hdup, hact, hexp, h50]
  · intro hlt hcnt
    unfold createBooking
    rw [hfind]
    simp [noFail, hdup, hact, hexp, Nat.not_le.mpr hlt, hcnt]
  · intro hlt hcnt
    have hcommit : createBooking store activities ub uid aid noFail newId now =
        (⟨true, msgSuccess a.title (confirmedCount store aid)⟩,
          store ++ [⟨newId, aid, uid, BStatus.confirmed, now, now⟩],
          ub ++ [⟨newId, aid, uid, BStatus.confirmed, now, now⟩]) := by
      have hcntlt : ¬ confirmedCount store aid ≥ maxParticipants := by
        rw [hcnt]
        simp [maxParticipants]
      unfold createBooking
      rw [hfind]
      simp [noFail, hdup, hact, hexp, Nat.not_le.mpr hlt, hcntlt]
    refine ⟨hcommit, ?_⟩
    rw [hcommit]
    simp only [confirmedCount_append_confirmed, hcnt]
    simp [maxParticipants]

/-- Concrete store for the C3 witness: 49 confirmed bookings of another
user on the same activity. -/
def c3store : List Booking :=
  List.replicate 49 ⟨str "b0", str "act1", str "other", BStatus.confirmed, 0, 0⟩

/-- Concrete activity for the C3 witness. -/
def c3act : Activity :=
  ⟨str "act1", str "Hike", str "d", str "all", str "easy", str "s", str "e",
    str "9", str "10", 5, 60, 10, [], [], true, false⟩

/-- Witness for C3: at 49 confirmed bookings the booking commits and the
confirmed count reaches 50. -/
theorem c3_capacity_guard_witness :
    (createBooking c3store [c3act] [] (str "u1") (str "act1") noFail (str "nb") 7 =
      (⟨true, msgSuccess c3act.title (confirmedCount c3store (str "act1"))⟩,
        c3store ++ [⟨str "nb", str "act1", str "u1", BStatus.confirmed, 7, 7⟩],
        [] ++ [⟨str "nb", str "act1", str "u1", BStatus.confirmed, 7, 7⟩])) ∧
    confirmedCount
        (createBooking c3store [c3act] [] (str "u1") (str "act1") noFail
          (str "nb") 7).2.1 (str "act1") =
      maxParticipants :=
  (c3_capacity_guard c3store [c3act] [] (str "u1") (str "act1") (str "nb") 7 c3act
      (by decide) (by decide) rfl rfl).2.2 (by decide) (by decide)

/-! ## C6: Booking Executor state-machine order and totality -/

theorem msgFull_ne_generic (n : Nat) : msgFull n ≠ msgGenericFail := by
  intro h
  have h1 : (msgFull n).head? = some 'S' := rfl
  have h2 : msgGenericFail.head? = some 'F' := rfl
  rw [h, h2] at h1
  cases h1

theorem msgSuccess_ne_generic (t : List Char) (n : Nat) :
    msgSuccess t n ≠ msgGenericFail := by
  intro h
  have h1 : (msgSuccess t n).head? = some 'S' := rfl
  have h2 : msgGenericFail.head? = some 'F' := rfl
  rw [h, h2] at h1
  cases h1

/-- Concrete state for the unknown-identifier round trip: a configured
credential, an empty snapshot and store. -/
def c6state : ChatState :=
  ⟨[], str "book it", false, [], [], [],
    some ⟨some (str "k"), none, str "Dana", str "d@x"⟩, str "u1"⟩

/-- Oracle whose generated reply carries a sentinel with an identifier
that resolves to no activity. -/
def c6oracle : TurnOracle :=
  ⟨GeminiNet.ok ⟨some [⟨some ⟨some [⟨some (str "BOOK_ACTIVITY:ghost")⟩]⟩⟩]⟩,
    noFail, str "nb", 1⟩

/-- C6: `createBooking` runs its checks in the fixed order duplicate →
existence → availability → capacity → commit, each failing check
returning its terminal outcome with no write; an identifier resolving to
no activity (with no matching booking) yields the not-found outcome,
which the orchestrator surfaces as the assistant's message; the generic
failure only arises from a store operation failing. -/
theorem c6_state_machine (store : List Booking) (activities : List Activity)
    (ub : List Booking) (uid aid newId : List Char) (now : Nat) :
    ((dupBookings store uid aid).isEmpty = false →
      createBooking store activities ub uid aid noFail newId now =
        (⟨false, msgAlreadyBooked⟩, store, ub)) ∧
    ((dupBookings store uid aid).isEmpty = true →
      activities.find? (fun x => x.id == aid) = none →
      createBooking store activities ub uid aid noFail newId now =
        (⟨false, msgNotFound⟩, store, ub)) ∧
    (∀ a : Activity, (dupBookings store uid aid).isEmpty = true →
      activities.find? (fun x => x.id == aid) = some a →
      (!a.isActive || a.isExpired) = true →
      createBooking store activities ub uid aid noFail newId now =
        (⟨false, msgUnavailable⟩, store, ub)) ∧
    (∀ a : Activity, (dupBookings store uid aid).isEmpty = true →
      activities.find? (fun x => x.id == aid) = some a →
      a.isActive = true → a.isExpired = false →
      a.currentParticipants ≥ maxParticipants →
      createBooking store activities ub uid aid noFail newId now =
        (⟨false, msgFull a.currentParticipants⟩, store, ub)) ∧
    (∀ a : Activity, (dupBookings store uid aid).isEmpty = true →
      activities.find? (fun x => x.id == aid) = some a →
      a.isActive = true → a.isExpired = false →
      a.currentParticipants < maxParticipants →
      confirmedCount store aid ≥ maxParticipants →
      createBooking store activities ub uid aid noFail newId now =
        (⟨false, msgFull (confirmedCount store aid)⟩, store, ub)) ∧
    (∀ a : Activity, (dupBookings store uid aid).isEmpty = true →
      activities.find? (fun x => x.id == aid) = some a →
      a.isActive = true → a.isExpired = false →
      a.currentParticipants < maxParticipants →
      confirmedCount store aid < maxParticipants →
      createBooking store activities ub uid aid noFail newId now =
        (⟨true, msgSuccess a.title (confirmedCount store aid)⟩,
          store ++ [⟨newId, aid, uid, BStatus.confirmed, now, now⟩],
          ub ++ [⟨newId, aid, uid, BStatus.confirmed, now, now⟩])) ∧
    (∀ fail : FailSpec,
      (createBooking store activities ub uid aid fail newId now).1.message =
        msgGenericFail →
      fail.failDupQuery = true ∨ fail.failCountQuery = true ∨
        fail.failSetDoc = true) ∧
    (handleSendMessage c6state c6oracle).messages =
      [⟨1, str "book it", true, 1⟩, ⟨2, msgNotFound, false, 2⟩] := by
  refine ⟨?_, ?_, ?_, ?_, ?_, ?_, ?_, ?_⟩
  · intro hdup
    simp [createBooking, noFail, hdup]
  · intro hdup hfind
    unfold createBooking
    rw [hfind]
    simp [noFail, hdup]
  · intro a hdup hfind hcond
    unfold createBooking
    rw [hfind]
    simp [noFail, hdup, hcond]
  · intro a hdup hfind hact hexp h50
    unfold createBooking
    rw [hfind]
    simp [noFail, hdup, hact, hexp, h50]
  · intro a hdup hfind hact hexp hlt hcnt
    unfold createBooking
    rw [hfind]
    simp [noFail, hdup, hact, hexp, Nat.not_le.mpr hlt, hcnt]
  · intro a hdup hfind hact hexp hlt hcnt
    unfold createBooking
    rw [hfind]
    simp [noFail, hdup, hact, hexp, Nat.not_le.mpr hlt, Nat.not_le.mpr hcnt]
  · intro fail hmsg
    rcases fail with ⟨d1, d2, d3⟩
    cases d1
    · cases d2
      · cases d3
        · exfalso
          unfold createBooking at hmsg
          simp only [Bool.false_eq_true, if_false] at hmsg
          split at hmsg
          · exact absurd (show msgAlreadyBooked = msgGenericFail from hmsg) (by decide)
          · split at hmsg
            · exact absurd (show msgNotFound = msgGenericFail from hmsg) (by decide)
            · split at hmsg
              · exact absurd (show msgUnavailable = msgGenericFail from hmsg) (by decide)
              · split at hmsg
                · exact msgFull_ne_generic _ hmsg
                · split at hmsg
                  · exact msgFull_ne_generic _ hmsg
                  · exact msgSuccess_ne_generic _ _ hmsg
        · simp
      · simp
    · simp
  · decide

/-- Witness for C6: an unknown identifier on an empty snapshot gives
the not-found outcome with no write. -/
theorem c6_state_machine_witness :
    createBooking [] [] [] (str "u1") (str "ghost") noFail (str "n") 2 =
      (⟨false, msgNotFound⟩, [], []) :=
  (c6_state_machine [] [] [] (str "u1") (str "ghost") (str "n") 2).2.1 rfl rfl

/-! ## C8: active-booking-discussion signal and last-8 context -/

theorem recentMessages_append (old tail : List Message) (hlen : tail.length = 8) :
    recentMessages (old ++ tail) = tail ∧ recentMessages tail = tail := by
  constructor
  · have h8 : (old ++ tail).length - 8 = old.length := by
      rw [List.length_append, hlen]
      omega
    rw [recentMessages, h8, List.drop_left]
  · rw [recentMessages, hlen]
    simp

/-- C8: the active-booking-discussion flag is true exactly when the most
recent assistant message among the last 8 transcript messages contains
one of the four fixed phrase fragments; both the flag and the serialized
conversation context are functions of the last 8 messages only
(prepending older messages changes neither). -/
theorem c8_booking_discussion_signal (msgs old tail : List Message)
    (hlen : tail.length = 8) :
    (isActiveBookingDiscussion msgs = true ↔
      str "Would you like to book" <:+: lastAIMessage msgs ∨
      str "book this activity" <:+: lastAIMessage msgs ∨
      str "confirm" <:+: lastAIMessage msgs ∨
      str "Just to confirm" <:+: lastAIMessage msgs) ∧
    isActiveBookingDiscussion (old ++ tail) = isActiveBookingDiscussion tail ∧
    conversationContext (old ++ tail) = conversationContext tail := by
  obtain ⟨hdrop, hself⟩ := recentMessages_append old tail hlen
  refine ⟨?_, ?_, ?_⟩
  · simp [isActiveBookingDiscussion, jsIncludes_iff_infix, or_assoc]
  · rw [isActiveBookingDiscussion, isActiveBookingDiscussion,
      lastAIMessage, lastAIMessage, hdrop, hself]
  · rw [conversationContext, conversationContext, hdrop, hself]

/-- Witness for C8: a transcript whose last assistant message offers a
booking, behind a 9-message history whose first message is dropped. -/
theorem c8_booking_discussion_signal_witness :
    (isActiveBookingDiscussion
        [⟨0, str "old offer: Would you like to book it?", false, 0⟩,
          ⟨1, str "hi", true, 1⟩, ⟨2, str "hello!", false, 2⟩,
          ⟨3, str "plans?", true, 3⟩,
          ⟨4, str "Would you like to book this one?", false, 4⟩,
          ⟨5, str "yes", true, 5⟩, ⟨6, str "ok", true, 6⟩,
          ⟨7, str "great", true, 7⟩, ⟨8, str "sure", true, 8⟩] = true ↔
      str "Would you like to book" <:+: lastAIMessage
        [⟨0, str "old offer: Would you like to book it?", false, 0⟩,
          ⟨1, str "hi", true, 1⟩, ⟨2, str "hello!", false, 2⟩,
          ⟨3, str "plans?", true, 3⟩,
          ⟨4, str "Would you like to book this one?", false, 4⟩,
          ⟨5, str "yes", true, 5⟩, ⟨6, str "ok", true, 6⟩,
          ⟨7, str "great", true, 7⟩, ⟨8, str "sure", true, 8⟩] ∨
      str "book this activity" <:+: lastAIMessage
        [⟨0, str "old offer: Would you like to book it?", false, 0⟩,
          ⟨1, str "hi", true, 1⟩, ⟨2, str "hello!", false, 2⟩,
          ⟨3, str "plans?", true, 3⟩,
          ⟨4, str "Would you like to book this one?", false, 4⟩,
          ⟨5, str "yes", true, 5⟩, ⟨6, str "ok", true, 6⟩,
          ⟨7, str "great", true, 7⟩, ⟨8, str "sure", true, 8⟩] ∨
      str "confirm" <:+: lastAIMessage
        [⟨0, str "old offer: Would you like to book it?", false, 0⟩,
          ⟨1, str "hi", true, 1⟩, ⟨2, str "hello!", false, 2⟩,
          ⟨3, str "plans?", true, 3⟩,
          ⟨4, str "Would you like to book this one?", false, 4⟩,
          ⟨5, str "yes", true, 5⟩, ⟨6, str "ok", true, 6⟩,
          ⟨7, str "great", true, 7⟩, ⟨8, str "sure", true, 8⟩] ∨
      str "Just to confirm" <:+: lastAIMessage
        [⟨0, str "old offer: Would you like to book it?", false, 0⟩,
          ⟨1, str "hi", true, 1⟩, ⟨2, str "hello!", false, 2⟩,
          ⟨3, str "plans?", true, 3⟩,
          ⟨4, str "Would you like to book this one?", false, 4⟩,
          ⟨5, str "yes", true, 5⟩, ⟨6, str "ok", true, 6⟩,
          ⟨7, str "great", true, 7⟩, ⟨8, str "sure", true, 8⟩]) ∧
    isActiveBookingDiscussion
        ([⟨9, str "ancient", true, 9⟩] ++
          [⟨1, str "hi", true, 1⟩, ⟨2, str "hello!", false, 2⟩,
            ⟨3, str "plans?", true, 3⟩,
            ⟨4, str "Would you like to book this one?", false, 4⟩,
            ⟨5, str "yes", true, 5⟩, ⟨6, str "ok", true, 6⟩,
            ⟨7, str "great", true, 7⟩, ⟨8, str "sure", true, 8⟩]) =
      isActiveBookingDiscussion
        [⟨1, str "hi", true, 1⟩, ⟨2, str "hello!", false, 2⟩,
          ⟨3, str "plans?", true, 3⟩,
          ⟨4, str "Would you like to book this one?", false, 4⟩,
          ⟨5, str "yes", true, 5⟩, ⟨6, str "ok", true, 6⟩,
          ⟨7, str "great", true, 7⟩, ⟨8, str "sure", true, 8⟩] ∧
    conversationContext
        ([⟨9, str "ancient", true, 9⟩] ++
          [⟨1, str "hi", true, 1⟩, ⟨2, str "hello!", false, 2⟩,
            ⟨3, str "plans?", true, 3⟩,
            ⟨4, str "Would you like to book this one?", false, 4⟩,
            ⟨5, str "yes", true, 5⟩, ⟨6, str "ok", true, 6⟩,
            ⟨7, str "great", true, 7⟩, ⟨8, str "sure", true, 8⟩]) =
      conversationContext
        [⟨1, str "hi", true, 1⟩, ⟨2, str "hello!", false, 2⟩,
          ⟨3, str "plans?", true, 3⟩,
          ⟨4, str "Would you like to book this one?", false, 4⟩,
          ⟨5, str "yes", true, 5⟩, ⟨6, str "ok", true, 6⟩,
          ⟨7, str "great", true, 7⟩, ⟨8, str "sure", true, 8⟩] :=
  c8_booking_discussion_signal
    [⟨0, str "old offer: Would you like to book it?", false, 0⟩,
      ⟨1, str "hi", true, 1⟩, ⟨2, str "hello!", false, 2⟩,
      ⟨3, str "plans?", true, 3⟩,
      ⟨4, str "Would you like to book this one?", false, 4⟩,
      ⟨5, str "yes", true, 5⟩, ⟨6, str "ok", true, 6⟩,
      ⟨7, str "great", true, 7⟩, ⟨8, str "sure", true, 8⟩]
    [⟨9, str "ancient", true, 9⟩]
    [⟨1, str "hi", true, 1⟩, ⟨2, str "hello!", false, 2⟩,
      ⟨3, str "plans?", true, 3⟩,
      ⟨4, str "Would you like to book this one?", false, 4⟩,
      ⟨5, str "yes", true, 5⟩, ⟨6, str "ok", true, 6⟩,
      ⟨7, str "great", true, 7⟩, ⟨8, str "sure", true, 8⟩]
    rfl

/-! ## C9: missing-credential behaviour -/

/-- C9: when the profile credential is absent or empty, `callGeminiAPI`
returns the fixed instructional message and never contacts the
generation endpoint, whatever the network oracle would have answered. -/
theorem c9_missing_credential (profile : Option UserProfile)
    (msgs : List Message) (net : GeminiNet)
    (hkey : profile.bind UserProfile.geminiApiKey = none ∨
      profile.bind UserProfile.geminiApiKey = some []) :
    callGeminiAPI profile msgs net = ⟨msgNoKey, false⟩ := by
  rcases hkey with h | h <;> simp [callGeminiAPI, jsTruthy, h]

/-- Witness for C9: no profile at all. -/
theorem c9_missing_credential_witness :
    callGeminiAPI none [] GeminiNet.netError = ⟨msgNoKey, false⟩ :=
  c9_missing_credential none [] GeminiNet.netError (Or.inl rfl)

/-! ## C10: geocoding degradation -/

/-- A location with an empty stored address, for the C10 counterexample. -/
def c10loc : LocationDoc :=
  ⟨str "l1", str "Venue", str "d", [], 0, 0, str "c", true⟩

/-- C10 counterexample: the claim says the stored address string is used
verbatim as the resulting place name and context whenever geocoding
fails.  For a location with an empty address and name `"Venue"`, the
code instead returns the name as the place name and the fixed
`"Unknown location"` placeholder as the context. -/
theorem c10_claim_counterexample :
    getEnhancedPlaceInfo c10loc GeoNet.fail =
      ⟨str "Venue", str "Unknown location"⟩ ∧
    c10loc.address = [] ∧ str "Venue" ≠ ([] : List Char) ∧
    str "Unknown location" ≠ ([] : List Char) := by decide

/-- C10 (amended): `getEnhancedPlaceInfo` is total; whenever the
reverse-geocoding call fails or its envelope yields no place string, a
non-empty stored address is used verbatim as both the place name and
the context, while an empty stored address degrades to the location
name (or the fixed placeholder) as place name and the placeholder as
context. -/
theorem c10_geocoding_degradation (loc : LocationDoc) (net : GeoNet)
    (hgeo : coordinatePlaceName net = []) :
    (loc.address ≠ [] →
      getEnhancedPlaceInfo loc net = ⟨loc.address, loc.address⟩) ∧
    (loc.address = [] →
      getEnhancedPlaceInfo loc net =
        ⟨jsOrStr loc.name (str "Unknown location"), str "Unknown location"⟩) := by
  constructor
  · intro haddr
    have hne : loc.address.isEmpty = false := by
      cases h : loc.address.isEmpty
      · rfl
      · rw [List.isEmpty_iff] at h
        exact absurd h haddr
    simp [getEnhancedPlaceInfo, hgeo, jsOrStr, hne]
  · intro haddr
    simp [getEnhancedPlaceInfo, hgeo, jsOrStr, haddr]

/-- Witness for C10: a non-empty address survives a geocoding failure
verbatim. -/
theorem c10_geocoding_degradation_witness :
    getEnhancedPlaceInfo
        ⟨str "l2", str "Pier", str "d", str "Corniche, Beirut", 0, 0, str "c", true⟩
        GeoNet.fail =
      ⟨str "Corniche, Beirut", str "Corniche, Beirut"⟩ :=
  (c10_geocoding_degradation
      ⟨str "l2", str "Pier", str "d", str "Corniche, Beirut", 0, 0, str "c", true⟩
      GeoNet.fail rfl).1 (by decide)

end Meshwar
